import Mathlib

/-!
Verification of the ticket-sync and issue-clustering core of the
product-issue-miner backend, shallowly embedded in Lean.

The embedded code:
- `ZendeskClient._request` retry loop (app/services/zendesk.py)
- `SyncService.sync_tickets` single-flight guard and
  `SyncService._upsert_ticket` (app/services/sync.py)
- `ClusteringService.cluster_issues`, `_find_matching_cluster`,
  `update_cluster_trends`, `update_unique_customer_counts`,
  `merge_clusters` (app/services/clusterer.py)

Times are modelled as integers (seconds); a day is 86400 seconds.
SQL semantics followed where relevant: `COUNT(DISTINCT col)` ignores
NULLs, comparisons against NULL are not satisfied.
-/

namespace Miner

/-! ### ZendeskClient._request (zendesk.py lines 120-218) -/

/-- One HTTP response observed by the request loop: the status code and,
for 429 responses, the optional Retry-After header value (seconds). -/
structure Response where
  status : Nat
  retryAfter : Option Nat
deriving DecidableEq, Repr

/-- How a call to `_request` ends. -/
inductive ReqResult where
  /-- 2xx: `response.json()` is returned. -/
  | ok
  /-- `ZendeskRateLimitError` raised (429 budget exhausted). -/
  | rateLimitErr
  /-- `ZendeskAPIError` raised (5xx budget exhausted, or non-429 4xx). -/
  | apiErr
  /-- Model artifact: the supplied response list ran out. -/
  | noResponse
deriving DecidableEq, Repr

/-- Observable trace of one `_request` call: outcome, number of HTTP
attempts made, and the sleep durations performed, in order. -/
structure ReqTrace where
  result : ReqResult
  attempts : Nat
  sleeps : List Nat
deriving DecidableEq, Repr

def MAX_RETRIES : Nat := 3
def INITIAL_BACKOFF : Nat := 1
def MAX_BACKOFF : Nat := 60

/-- The `while retries <= MAX_RETRIES` loop of `_request`, consuming one
response per attempt.  429: sleep the Retry-After value (defaulting to the
current backoff) unless the retry budget is spent; 5xx: sleep the current
backoff, then double it capped at 60; other 4xx: raise immediately
(`raise_for_status` -> `ZendeskAPIError`); otherwise return the body. -/
def requestLoop : List Response → Nat → Nat → Nat → List Nat → ReqTrace
  | [], _, _, attempts, sleeps => ⟨ReqResult.noResponse, attempts, sleeps⟩
  | r :: rest, retries, backoff, attempts, sleeps =>
    if r.status = 429 then
      if retries ≥ MAX_RETRIES then ⟨ReqResult.rateLimitErr, attempts + 1, sleeps⟩
      else requestLoop rest (retries + 1) backoff (attempts + 1)
        (sleeps ++ [r.retryAfter.getD backoff])
    else if 500 ≤ r.status ∧ r.status < 600 then
      if retries ≥ MAX_RETRIES then ⟨ReqResult.apiErr, attempts + 1, sleeps⟩
      else requestLoop rest (retries + 1) (min (backoff * 2) MAX_BACKOFF) (attempts + 1)
        (sleeps ++ [backoff])
    else if 400 ≤ r.status ∧ r.status < 500 then
      ⟨ReqResult.apiErr, attempts + 1, sleeps⟩
    else
      ⟨ReqResult.ok, attempts + 1, sleeps⟩

/-- `_request` as observed from outside: loop started with `retries = 0`
and `backoff = INITIAL_BACKOFF`. -/
def zendeskRequest (resps : List Response) : ReqTrace :=
  requestLoop resps 0 INITIAL_BACKOFF 0 []

/-! ### SyncService.sync_tickets single-flight guard (sync.py lines 63-130) -/

/-- Errors surfaced by `sync_tickets`. -/
inductive SyncError where
  /-- `RuntimeError("Sync already in progress")`. -/
  | alreadyRunning
  /-- Any exception escaping the `try` body (e.g. client retry-exhausted). -/
  | fatal
deriving DecidableEq, Repr

/-- The per-instance guard state of a `SyncService`. -/
structure SyncGuard where
  is_running : Bool
deriving DecidableEq, Repr

/-- Guard behaviour of `sync_tickets`: reject when already running;
otherwise set the flag, run the body (which may raise), and clear the
flag in the `finally` block on both the normal and raising paths. -/
def syncTickets (st : SyncGuard) (bodyRaises : Bool) :
    Except SyncError Unit × SyncGuard :=
  if st.is_running then (Except.error SyncError.alreadyRunning, st)
  else if bodyRaises then (Except.error SyncError.fatal, ⟨false⟩)
  else (Except.ok (), ⟨false⟩)

/-! ### Data model (app/models/ticket.py, issue.py, cluster.py)

Rows are embedded as structures; nullable columns are `Option`s.
UUID primary keys are modelled as `Nat`s. -/

/-- A row of the `tickets` table (the columns the embedded services use). -/
structure TicketRow where
  id : Nat
  zendesk_ticket_id : Nat
  subject : Option String
  description : Option String
  internal_notes : Option String
  public_comments : Option String
  requester_email : Option String
  requester_org_name : Option String
  zendesk_org_id : Option Nat
  tags : List String
  status : Option String
  priority : Option String
  ticket_created_at : Int
  ticket_updated_at : Int
  synced_at : Int
deriving DecidableEq, Repr

/-- A row of the `extracted_issues` table (the columns clustering uses). -/
structure Issue where
  id : Nat
  ticket_id : Nat
  cluster_id : Option Nat
  category : String
  subcategory : String
  summary : String
  extracted_at : Option Int
deriving DecidableEq, Repr

/-- A row of the `issue_clusters` table. -/
structure Cluster where
  id : Nat
  category : String
  subcategory : String
  cluster_name : String
  cluster_summary : Option String
  issue_count : Nat
  unique_customers : Nat
  first_seen : Option Int
  last_seen : Option Int
  count_7d : Nat
  count_prior_7d : Nat
  trend_pct : Option ℚ
  is_active : Bool
  updated_at : Int
deriving DecidableEq, Repr

/-- The persistent state the clustering service operates on. -/
structure ClusterState where
  tickets : List TicketRow
  issues : List Issue
  clusters : List Cluster
  nextClusterId : Nat
deriving DecidableEq, Repr

/-! ### SyncService._upsert_ticket (sync.py lines 132-202) -/

/-- The `on_conflict_do_update` SET clause: overwrite exactly the listed
mutable columns with the incoming values; `id`, `zendesk_ticket_id`,
`zendesk_org_id` and `ticket_created_at` keep their stored values. -/
def applyConflictUpdate (old new : TicketRow) : TicketRow :=
  { old with
    subject := new.subject
    description := new.description
    internal_notes := new.internal_notes
    public_comments := new.public_comments
    requester_email := new.requester_email
    requester_org_name := new.requester_org_name
    tags := new.tags
    status := new.status
    priority := new.priority
    ticket_updated_at := new.ticket_updated_at
    synced_at := new.synced_at }

/-- `INSERT ... ON CONFLICT (zendesk_ticket_id) DO UPDATE`: insert the row
when no row carries its external id, otherwise update the conflicting
row's mutable columns in place. -/
def upsertTicket (store : List TicketRow) (row : TicketRow) : List TicketRow :=
  if store.any (fun r => r.zendesk_ticket_id == row.zendesk_ticket_id) then
    store.map (fun r =>
      if r.zendesk_ticket_id == row.zendesk_ticket_id then applyConflictUpdate r row else r)
  else store ++ [row]

/-- The rows of `store` carrying external ticket id `k`. -/
def rowsFor (store : List TicketRow) (k : Nat) : List TicketRow :=
  store.filter (fun r => r.zendesk_ticket_id == k)

/-! ### ClusteringService._find_matching_cluster (clusterer.py lines 132-173) -/

/-- Python `str.split()`: split on runs of whitespace, no empty words.
First argument: remaining characters; second: current word, reversed. -/
def wordsAux : List Char → List Char → List (List Char)
  | [], [] => []
  | [], cur => [cur.reverse]
  | c :: cs, cur =>
    if c.isWhitespace then
      (if cur = [] then wordsAux cs [] else cur.reverse :: wordsAux cs [])
    else wordsAux cs (c :: cur)

/-- Python `s.lower().split()` as a list of words (ASCII lowering, as in
the summaries and cluster names at hand). -/
def pyWordList (s : String) : List String :=
  (wordsAux (s.data.map Char.toLower) []).map String.mk

/-- Python `set(s.lower().split())`. -/
def pyWords (s : String) : Finset String :=
  (pyWordList s).toFinset

/-- `set(cluster.cluster_name.lower().split())` with the placeholder
token removed: `cluster_words.discard("new:")`. -/
def clusterWords (c : Cluster) : Finset String :=
  (pyWords c.cluster_name).erase "new:"

/-- `SIMILARITY_THRESHOLD = 0.3`. -/
def SIMILARITY_THRESHOLD : ℚ := mkRat 3 10

/-- `score = overlap / max(len(issue_words), 1)`, as an exact rational:
`mkRat n d` is the rational n/d. -/
def matchScore (iw cw : Finset String) : ℚ :=
  mkRat ((iw ∩ cw).card : Int) (max iw.card 1)

/-- The candidate scan of `_find_matching_cluster`: skip clusters whose
word set is empty after discarding the placeholder token; keep the
candidate whenever `score > SIMILARITY_THRESHOLD and score > best_score`. -/
def findMatchAux (iw : Finset String) : List Cluster → Option Cluster → ℚ → Option Cluster
  | [], best, _ => best
  | c :: rest, best, bestScore =>
    let cw := clusterWords c
    if cw = ∅ then findMatchAux iw rest best bestScore
    else
      let score := matchScore iw cw
      if SIMILARITY_THRESHOLD < score ∧ bestScore < score then
        findMatchAux iw rest (some c) score
      else
        findMatchAux iw rest best bestScore

/-- `_find_matching_cluster(issue, clusters)`: `best_match = None`,
`best_score = 0`, then scan the candidates in order. -/
def findMatchingCluster (issue : Issue) (clusters : List Cluster) : Option Cluster :=
  findMatchAux (pyWords issue.summary) clusters none 0

/-- The score `_find_matching_cluster` computes for one candidate (0 for a
candidate whose word set is empty, which the loop skips). -/
def scoreOf (issue : Issue) (c : Cluster) : ℚ :=
  matchScore (pyWords issue.summary) (clusterWords c)

/-! ### ClusteringService.cluster_issues (clusterer.py lines 42-130) -/

/-- Replace every cluster carrying the given cluster's id by it (the ORM
mutation of an already-loaded row). -/
def updateClusterList (cs : List Cluster) (c' : Cluster) : List Cluster :=
  cs.map (fun c => if c.id == c'.id then c' else c)

/-- Replace every issue carrying the given issue's id by it. -/
def updateIssueList (issues : List Issue) (i' : Issue) : List Issue :=
  issues.map (fun i => if i.id == i'.id then i' else i)

/-- The cluster created on no-match: temporary name
`f"New: {issue.summary[:50]}"`, count 1, first/last seen at the issue's
extraction time (`issue.extracted_at or datetime.utcnow()`), column
defaults for the rest (`is_active` true). -/
def newClusterFor (now : Int) (nextId : Nat) (issue : Issue) : Cluster :=
  { id := nextId
    category := issue.category
    subcategory := issue.subcategory
    cluster_name := "New: " ++ issue.summary.take 50
    cluster_summary := none
    issue_count := 1
    unique_customers := 0
    first_seen := some (issue.extracted_at.getD now)
    last_seen := some (issue.extracted_at.getD now)
    count_7d := 0
    count_prior_7d := 0
    trend_pct := none
    is_active := true
    updated_at := now }

/-- The mutation of a matched cluster (clusterer.py lines 97-98):
`issue_count += 1` and `last_seen = issue.extracted_at or utcnow()`. -/
def bumpCluster (now : Int) (issue : Issue) (m : Cluster) : Cluster :=
  { m with
    issue_count := m.issue_count + 1
    last_seen := some (issue.extracted_at.getD now) }

/-- The body of the inner `for issue in issues` loop: on a match, set the
issue's cluster, bump the matched cluster's count and overwrite its
`last_seen` with `issue.extracted_at or datetime.utcnow()`; otherwise
create a new cluster, assign the issue to it and append it to the
candidate list. -/
def assignIssue (now : Int) (acc : ClusterState × List Cluster) (issue : Issue) :
    ClusterState × List Cluster :=
  let st := acc.1
  let cands := acc.2
  match findMatchingCluster issue cands with
  | some m =>
    ({ st with
        issues := updateIssueList st.issues { issue with cluster_id := some m.id }
        clusters := updateClusterList st.clusters (bumpCluster now issue m) },
      updateClusterList cands (bumpCluster now issue m))
  | none =>
    let nc := newClusterFor now st.nextClusterId issue
    ({ st with
        issues := updateIssueList st.issues { issue with cluster_id := some nc.id }
        clusters := st.clusters ++ [nc]
        nextClusterId := st.nextClusterId + 1 },
      cands ++ [nc])

/-- One `(category, subcategory)` group: query the active clusters with
that key as candidates, then assign each issue of the group in order. -/
def processGroup (now : Int) (st : ClusterState) (k : String × String)
    (groupIssues : List Issue) : ClusterState :=
  let cands := st.clusters.filter
    (fun c => c.category == k.1 && c.subcategory == k.2 && c.is_active)
  (groupIssues.foldl (assignIssue now) (st, cands)).1

/-- The keys of `defaultdict` grouping, in first-occurrence order. -/
def groupKeys (issues : List Issue) : List (String × String) :=
  (issues.map (fun i => (i.category, i.subcategory))).foldl
    (fun acc k => if k ∈ acc then acc else acc ++ [k]) []

/-- `cluster_issues()` (without the subsequent external naming pass):
select the issues with `cluster_id IS NULL`, group them by
`(category, subcategory)`, and process each group. -/
def clusterIssues (now : Int) (st : ClusterState) : ClusterState :=
  let unclustered := st.issues.filter (fun i => i.cluster_id.isNone)
  (groupKeys unclustered).foldl
    (fun st' k => processGroup now st' k
      (unclustered.filter (fun i => i.category == k.1 && i.subcategory == k.2)))
    st

/-! ### ClusteringService.update_cluster_trends (clusterer.py lines 217-267) -/

/-- `timedelta(days=n)` in seconds. -/
def days (n : Int) : Int := n * 86400

/-- `extracted_at >= week_ago` (SQL: NULL satisfies no comparison). -/
def inRecentWindow (weekAgo : Int) (i : Issue) : Bool :=
  match i.extracted_at with
  | some t => weekAgo ≤ t
  | none => false

/-- `extracted_at >= two_weeks_ago AND extracted_at < week_ago`. -/
def inPriorWindow (twoWeeksAgo weekAgo : Int) (i : Issue) : Bool :=
  match i.extracted_at with
  | some t => twoWeeksAgo ≤ t && t < weekAgo
  | none => false

/-- The trend percentage:
`((count_7d - count_prior_7d) / count_prior_7d) * 100` when the prior
count is positive, else 100 when the recent count is positive, else 0. -/
def trendPct (c7 cp : Nat) : ℚ :=
  if 0 < cp then ((c7 : ℚ) - (cp : ℚ)) / (cp : ℚ) * 100
  else if 0 < c7 then 100 else 0

/-- `update_cluster_trends()`: for every active cluster, store the two
window counts, the trend percentage and `updated_at = now`. -/
def updateClusterTrends (now : Int) (st : ClusterState) : ClusterState :=
  let weekAgo := now - days 7
  let twoWeeksAgo := now - days 14
  { st with clusters := st.clusters.map (fun c =>
      if c.is_active then
        let c7 := (st.issues.filter
          (fun i => i.cluster_id == some c.id && inRecentWindow weekAgo i)).length
        let cp := (st.issues.filter
          (fun i => i.cluster_id == some c.id && inPriorWindow twoWeeksAgo weekAgo i)).length
        { c with
          count_7d := c7
          count_prior_7d := cp
          trend_pct := some (trendPct c7 cp)
          updated_at := now }
      else c) }

/-! ### ClusteringService.update_unique_customer_counts (clusterer.py lines 269-293) -/

/-- The `requester_org_name` values of the tickets joined to the cluster's
issues, NULLs dropped — `COUNT(DISTINCT col)` counts distinct non-NULL
values, and the inner join drops issues without a ticket row. -/
def orgNamesFor (st : ClusterState) (cid : Nat) : List String :=
  (st.issues.filter (fun i => i.cluster_id == some cid)).filterMap
    (fun i => (st.tickets.find? (fun t => t.id == i.ticket_id)).bind
      (fun t => t.requester_org_name))

/-- `update_unique_customer_counts()`: for every active cluster, store the
number of distinct non-NULL organization names across its issues' tickets. -/
def updateUniqueCustomerCounts (st : ClusterState) : ClusterState :=
  { st with clusters := st.clusters.map (fun c =>
      if c.is_active then
        { c with unique_customers := (orgNamesFor st c.id).dedup.length }
      else c) }

/-! ### ClusteringService.merge_clusters (clusterer.py lines 295-338) -/

/-- `merge_clusters(source_id, target_id)`: reassign the source's issues
to the target, deactivate the source, then — when the target row exists —
recompute `target.issue_count` as an exact recount of the issues now
referencing the target. -/
def mergeClusters (st : ClusterState) (sourceId targetId : Nat) : ClusterState :=
  let issues' := st.issues.map (fun i =>
    if i.cluster_id == some sourceId then { i with cluster_id := some targetId } else i)
  let clusters₁ := st.clusters.map (fun c =>
    if c.id == sourceId then { c with is_active := false } else c)
  match clusters₁.find? (fun c => c.id == targetId) with
  | none => { st with issues := issues', clusters := clusters₁ }
  | some _ =>
    let cnt := (issues'.filter (fun i => i.cluster_id == some targetId)).length
    { st with
      issues := issues'
      clusters := clusters₁.map (fun c =>
        if c.id == targetId then { c with issue_count := cnt } else c) }

/-! ### Invariants of the clustering pass (for claim C6) -/

/-- The cluster fields assignment relies on: id, key and activity. -/
def ClusterView (c : Cluster) : Nat × String × String × Bool :=
  (c.id, c.category, c.subcategory, c.is_active)

/-- Every cluster of `cs` persists in `cs'` with the same id, key and
activity (its counts, name and timestamps may change). -/
def ViewLe (cs cs' : List Cluster) : Prop :=
  ∀ c ∈ cs, ∃ c' ∈ cs', ClusterView c' = ClusterView c

/-- The issue is linked to an active cluster carrying the issue's own
(category, subcategory). -/
def GoodAssign (stF : ClusterState) (i : Issue) : Prop :=
  ∃ c ∈ stF.clusters, i.cluster_id = some c.id ∧ c.category = i.category ∧
    c.subcategory = i.subcategory ∧ c.is_active = true

/-- `i` and `i'` agree on every column except possibly `cluster_id`. -/
def SameButCluster (i i' : Issue) : Prop :=
  i.id = i'.id ∧ i.ticket_id = i'.ticket_id ∧ i.category = i'.category ∧
  i.subcategory = i'.subcategory ∧ i.summary = i'.summary ∧
  i.extracted_at = i'.extracted_at

/-- Every issue of the final state stems from an issue of the initial
state: non-cluster columns untouched, and `cluster_id` either unchanged
or previously NULL and now referencing an active cluster of the issue's
own (category, subcategory). -/
def IssueProvenance (st0 stF : ClusterState) : Prop :=
  ∀ i' ∈ stF.issues, ∃ i ∈ st0.issues, SameButCluster i i' ∧
    (i'.cluster_id = i.cluster_id ∨ (i.cluster_id = none ∧ GoodAssign stF i'))

/-- Invariant carried through the clustering pass: distinct cluster ids,
ids below the id counter, and issue provenance relative to `st0`. -/
def PassInv (st0 st : ClusterState) : Prop :=
  (st.clusters.map Cluster.id).Nodup ∧
  (∀ c ∈ st.clusters, c.id < st.nextClusterId) ∧
  IssueProvenance st0 st

/-- The candidate list holds clusters of the current state carrying the
group's key, all active. -/
def CandsOk (k : String × String) (st : ClusterState) (cands : List Cluster) : Prop :=
  ∀ c ∈ cands, c ∈ st.clusters ∧ c.category = k.1 ∧ c.subcategory = k.2 ∧
    c.is_active = true

/-! ### Spec-side definitions used to compare the code against claims -/

/-- Modelled from the claim's words (for comparison with the code's
`updateClusterTrends`): the number of the cluster's issues with
`extracted_at` in the half-open window `[now - 7d, now)`. -/
def claimedCount7d (now : Int) (st : ClusterState) (cid : Nat) : Nat :=
  (st.issues.filter (fun i =>
    i.cluster_id == some cid &&
      match i.extracted_at with
      | some t => decide (now - days 7 ≤ t) && decide (t < now)
      | none => false)).length

/-- Modelled from the claim's words (for comparison with the code's
`updateUniqueCustomerCounts`): distinct requester-organization values
across the cluster's issues' tickets with a NULL name counted as one
distinct value like any other. -/
def claimedUniqueCustomers (st : ClusterState) (cid : Nat) : Nat :=
  (((st.issues.filter (fun i => i.cluster_id == some cid)).filterMap
      (fun i => st.tickets.find? (fun t => t.id == i.ticket_id))).map
    (fun t => t.requester_org_name)).dedup.length

/-! ### Concrete states for witnesses and counterexamples -/

/-- A cluster whose name shares both words of the example issue summary. -/
def exCluster : Cluster :=
  ⟨0, "PAYROLL", "tax", "late paycheck delivery", none, 5, 0,
    some 900, some 1000, 0, 0, none, true, 0⟩

/-- An unclustered issue extracted at time 500, earlier than
`exCluster.last_seen = 1000`. -/
def exIssue : Issue := ⟨1, 10, none, "PAYROLL", "tax", "late paycheck", some 500⟩

/-- State with one active cluster and one matching unclustered issue. -/
def exMatchState : ClusterState :=
  { tickets := [], issues := [exIssue], clusters := [exCluster], nextClusterId := 1 }

/-- An active cluster with id 0 used by several example states. -/
def exActiveCluster : Cluster :=
  ⟨0, "PAYROLL", "tax", "c", none, 1, 0, none, none, 0, 0, none, true, 0⟩

/-- State whose only issue is extracted 5 seconds after `now = 1000000`. -/
def exFutureState : ClusterState :=
  { tickets := []
    issues := [⟨1, 10, some 0, "PAYROLL", "tax", "x", some 1000005⟩]
    clusters := [exActiveCluster]
    nextClusterId := 1 }

/-- State with one cluster issue whose ticket has a NULL organization. -/
def exNullOrgState : ClusterState :=
  { tickets := [⟨100, 7, none, none, none, none, none, none, none, [], none, none, 0, 0, 0⟩]
    issues := [⟨1, 100, some 0, "PAYROLL", "tax", "x", some 5⟩]
    clusters := [exActiveCluster]
    nextClusterId := 1 }

/-- State with two clusters, one issue on each, for the merge claim. -/
def exMergeState : ClusterState :=
  { tickets := []
    issues := [⟨1, 100, some 0, "PAYROLL", "tax", "x", some 5⟩,
               ⟨2, 100, some 1, "PAYROLL", "tax", "y", some 6⟩]
    clusters := [⟨0, "PAYROLL", "tax", "a", none, 1, 0, none, none, 0, 0, none, true, 0⟩,
                 ⟨1, "PAYROLL", "tax", "b", none, 1, 0, none, none, 0, 0, none, true, 0⟩]
    nextClusterId := 2 }

/-- A first ticket snapshot for external id 7. -/
def exRowV1 : TicketRow :=
  ⟨50, 7, some "s1", some "d1", some "n1", some "p1", some "e1", some "o1",
    some 3, ["a"], some "open", some "high", 10, 20, 30⟩

/-- A second snapshot of the same external id with different values. -/
def exRowV2 : TicketRow :=
  ⟨51, 7, some "s2", some "d2", some "n2", some "p2", some "e2", some "o2",
    some 4, ["b"], some "solved", some "low", 11, 40, 60⟩

end Miner

namespace Miner

/-! ### Helper lemmas -/

@[simp] lemma applyConflictUpdate_ticket_id (a v : TicketRow) :
    (applyConflictUpdate a v).zendesk_ticket_id = a.zendesk_ticket_id := rfl

lemma upsertTicket_of_rowsFor_nil (store : List TicketRow) (row : TicketRow)
    (h : rowsFor store row.zendesk_ticket_id = []) :
    upsertTicket store row = store ++ [row] := by
  have hall := List.filter_eq_nil_iff.mp h
  unfold upsertTicket
  rw [if_neg]
  simp only [List.any_eq_true, not_exists, not_and]
  intro r hr
  exact fun hb => hall r hr hb

lemma upsertTicket_of_rowsFor_ne_nil (store : List TicketRow) (row : TicketRow)
    (h : rowsFor store row.zendesk_ticket_id ≠ []) :
    upsertTicket store row = store.map (fun r =>
      if r.zendesk_ticket_id == row.zendesk_ticket_id then applyConflictUpdate r row else r) := by
  obtain ⟨a, ha⟩ := List.exists_mem_of_ne_nil _ h
  simp only [rowsFor] at ha
  unfold upsertTicket
  rw [if_pos]
  obtain ⟨ham, hpa⟩ := List.mem_filter.mp ha
  exact List.any_eq_true.mpr ⟨a, ham, hpa⟩

lemma rowsFor_append_single (store : List TicketRow) (v : TicketRow) (k : Nat)
    (h : v.zendesk_ticket_id = k) :
    rowsFor (store ++ [v]) k = rowsFor store k ++ [v] := by
  simp [rowsFor, List.filter_append, h]

lemma rowsFor_map_update (store : List TicketRow) (v : TicketRow) :
    rowsFor (store.map (fun r =>
        if r.zendesk_ticket_id == v.zendesk_ticket_id then applyConflictUpdate r v else r))
      v.zendesk_ticket_id
    = (rowsFor store v.zendesk_ticket_id).map (fun r => applyConflictUpdate r v) := by
  induction store with
  | nil => rfl
  | cons a l ih =>
    by_cases hid : a.zendesk_ticket_id = v.zendesk_ticket_id
    · simp only [List.map_cons, rowsFor, List.filter_cons] at *
      simp [hid] at *
      exact ih
    · simp only [List.map_cons, rowsFor, List.filter_cons] at *
      simp [hid] at *
      exact ih

lemma rowsFor_upsert (store : List TicketRow) (v : TicketRow) (k : Nat)
    (hv : v.zendesk_ticket_id = k) (hu : (rowsFor store k).length ≤ 1) :
    rowsFor (upsertTicket store v) k = [v] ∨
    ∃ a, a.zendesk_ticket_id = k ∧
      rowsFor (upsertTicket store v) k = [applyConflictUpdate a v] := by
  rcases hcase : rowsFor store k with _ | ⟨a, l⟩
  · left
    have e := upsertTicket_of_rowsFor_nil store v (by rw [hv, hcase])
    rw [e, rowsFor_append_single store v k hv, hcase]
    rfl
  · right
    have hl : l = [] := by
      have := hu
      rw [hcase] at this
      simpa using this
    subst hl
    have hak : a.zendesk_ticket_id = k := by
      have ham : a ∈ rowsFor store k := by rw [hcase]; exact List.mem_singleton.mpr rfl
      simp only [rowsFor] at ham
      have := (List.mem_filter.mp ham).2
      simpa using this
    refine ⟨a, hak, ?_⟩
    have e := upsertTicket_of_rowsFor_ne_nil store v (by rw [hv, hcase]; simp)
    rw [e, ← hv, rowsFor_map_update, hv, hcase]
    rfl

lemma deact_cluster_id (A : Nat) (c : Cluster) :
    (if c.id == A then { c with is_active := false } else c).id = c.id := by
  split <;> rfl

lemma setcount_cluster_id (B n : Nat) (c : Cluster) :
    (if c.id == B then { c with issue_count := n } else c).id = c.id := by
  split <;> rfl

lemma setcount_cluster_active (B n : Nat) (c : Cluster) :
    (if c.id == B then { c with issue_count := n } else c).is_active = c.is_active := by
  split <;> rfl

lemma matchScore_empty (iw : Finset String) : matchScore iw ∅ = 0 := by
  have hd : (max iw.card 1 : Int) ≠ 0 := by
    have : 1 ≤ max iw.card 1 := le_max_right _ _
    omega
  simp [matchScore]

lemma threshold_pos : (0 : ℚ) < SIMILARITY_THRESHOLD := by
  rw [SIMILARITY_THRESHOLD]
  decide

lemma findMatchAux_isSome (iw : Finset String) :
    ∀ (cs : List Cluster) (b : Cluster) (bs : ℚ),
      (findMatchAux iw cs (some b) bs).isSome = true := by
  intro cs
  induction cs with
  | nil => intro b bs; rfl
  | cons e rest ih =>
    intro b bs
    simp only [findMatchAux]
    by_cases hcw : clusterWords e = ∅
    · rw [if_pos hcw]
      exact ih b bs
    · rw [if_neg hcw]
      by_cases hq : SIMILARITY_THRESHOLD < matchScore iw (clusterWords e) ∧
          bs < matchScore iw (clusterWords e)
      · rw [if_pos hq]
        exact ih e _
      · rw [if_neg hq]
        exact ih b bs

lemma findMatchAux_none (iw : Finset String) :
    ∀ (cs : List Cluster) (best : Option Cluster) (bs : ℚ),
      findMatchAux iw cs best bs = none →
      ∀ d ∈ cs, matchScore iw (clusterWords d) ≤ SIMILARITY_THRESHOLD ∨
        matchScore iw (clusterWords d) ≤ bs := by
  intro cs
  induction cs with
  | nil => intro best bs _ d hd; exact absurd hd (List.not_mem_nil d)
  | cons e rest ih =>
    intro best bs h d hd
    rw [findMatchAux] at h
    by_cases hcw : clusterWords e = ∅
    · rw [if_pos hcw] at h
      rcases List.mem_cons.mp hd with rfl | hd'
      · left
        rw [hcw, matchScore_empty]
        exact le_of_lt threshold_pos
      · exact ih best bs h d hd'
    · rw [if_neg hcw] at h
      by_cases hq : SIMILARITY_THRESHOLD < matchScore iw (clusterWords e) ∧
          bs < matchScore iw (clusterWords e)
      · rw [if_pos hq] at h
        have := findMatchAux_isSome iw rest e (matchScore iw (clusterWords e))
        rw [h] at this
        exact absurd this (by simp)
      · rw [if_neg hq] at h
        rcases List.mem_cons.mp hd with rfl | hd'
        · rcases not_and_or.mp hq with h1 | h1
          · exact Or.inl (not_lt.mp h1)
          · exact Or.inr (not_lt.mp h1)
        · exact ih best bs h d hd'

lemma findMatchAux_keeps (iw : Finset String) :
    ∀ (cs : List Cluster) (best : Option Cluster) (bs : ℚ),
      (∀ d ∈ cs, matchScore iw (clusterWords d) ≤ SIMILARITY_THRESHOLD ∨
        matchScore iw (clusterWords d) ≤ bs) →
      findMatchAux iw cs best bs = best := by
  intro cs
  induction cs with
  | nil => intro best bs _; rfl
  | cons e rest ih =>
    intro best bs hall
    rw [findMatchAux]
    by_cases hcw : clusterWords e = ∅
    · rw [if_pos hcw]
      exact ih best bs (fun d hd => hall d (List.mem_cons_of_mem e hd))
    · rw [if_neg hcw]
      have he := hall e (List.mem_cons_self e rest)
      rw [if_neg (by
        rintro ⟨h1, h2⟩
        rcases he with h | h
        · exact absurd h1 (not_lt.mpr h)
        · exact absurd h2 (not_lt.mpr h))]
      exact ih best bs (fun d hd => hall d (List.mem_cons_of_mem e hd))

lemma findMatchAux_spec (iw : Finset String) :
    ∀ (cs : List Cluster) (best : Option Cluster) (bs : ℚ) (c : Cluster),
      findMatchAux iw cs best bs = some c →
      (best = some c ∧ ∀ d ∈ cs,
        matchScore iw (clusterWords d) ≤ SIMILARITY_THRESHOLD ∨
        matchScore iw (clusterWords d) ≤ bs) ∨
      (∃ l₁ l₂, cs = l₁ ++ c :: l₂ ∧
        SIMILARITY_THRESHOLD < matchScore iw (clusterWords c) ∧
        bs < matchScore iw (clusterWords c) ∧
        (∀ d ∈ l₁, matchScore iw (clusterWords d) ≤ SIMILARITY_THRESHOLD ∨
          matchScore iw (clusterWords d) < matchScore iw (clusterWords c)) ∧
        (∀ d ∈ l₂, matchScore iw (clusterWords d) ≤ SIMILARITY_THRESHOLD ∨
          matchScore iw (clusterWords d) ≤ matchScore iw (clusterWords c))) := by
  intro cs
  induction cs with
  | nil =>
    intro best bs c h
    exact Or.inl ⟨h, fun d hd => absurd hd (List.not_mem_nil d)⟩
  | cons e rest ih =>
    intro best bs c h
    rw [findMatchAux] at h
    by_cases hcw : clusterWords e = ∅
    · rw [if_pos hcw] at h
      have hsc0 : matchScore iw (clusterWords e) ≤ SIMILARITY_THRESHOLD := by
        rw [hcw, matchScore_empty]
        exact le_of_lt threshold_pos
      rcases ih best bs c h with ⟨hb, hall⟩ | ⟨l₁, l₂, hsplit, h1, h2, hpre, hpost⟩
      · exact Or.inl ⟨hb, fun d hd => by
          rcases List.mem_cons.mp hd with rfl | hd'
          · exact Or.inl hsc0
          · exact hall d hd'⟩
      · refine Or.inr ⟨e :: l₁, l₂, by rw [hsplit]; rfl, h1, h2, ?_, hpost⟩
        intro d hd
        rcases List.mem_cons.mp hd with rfl | hd'
        · exact Or.inl hsc0
        · exact hpre d hd'
    · rw [if_neg hcw] at h
      by_cases hq : SIMILARITY_THRESHOLD < matchScore iw (clusterWords e) ∧
          bs < matchScore iw (clusterWords e)
      · rw [if_pos hq] at h
        rcases ih (some e) (matchScore iw (clusterWords e)) c h with
          ⟨hb, hall⟩ | ⟨l₁, l₂, hsplit, h1, h2, hpre, hpost⟩
        · have hec : e = c := Option.some.inj hb
          subst hec
          refine Or.inr ⟨[], rest, rfl, hq.1, hq.2, fun d hd => absurd hd (List.not_mem_nil d), ?_⟩
          exact hall
        · refine Or.inr ⟨e :: l₁, l₂, by rw [hsplit]; rfl, h1, lt_trans hq.2 h2, ?_, hpost⟩
          intro d hd
          rcases List.mem_cons.mp hd with rfl | hd'
          · exact Or.inr h2
          · exact hpre d hd'
      · rw [if_neg hq] at h
        have hefail : matchScore iw (clusterWords e) ≤ SIMILARITY_THRESHOLD ∨
            matchScore iw (clusterWords e) ≤ bs := by
          rcases not_and_or.mp hq with h1 | h1
          · exact Or.inl (not_lt.mp h1)
          · exact Or.inr (not_lt.mp h1)
        rcases ih best bs c h with ⟨hb, hall⟩ | ⟨l₁, l₂, hsplit, h1, h2, hpre, hpost⟩
        · exact Or.inl ⟨hb, fun d hd => by
            rcases List.mem_cons.mp hd with rfl | hd'
            · exact hefail
            · exact hall d hd'⟩
        · refine Or.inr ⟨e :: l₁, l₂, by rw [hsplit]; rfl, h1, h2, ?_, hpost⟩
          intro d hd
          rcases List.mem_cons.mp hd with rfl | hd'
          · rcases hefail with hx | hx
            · exact Or.inl hx
            · exact Or.inr (lt_of_le_of_lt hx h2)
          · exact hpre d hd'

lemma findMatchingCluster_mem (issue : Issue) (cs : List Cluster) (c : Cluster)
    (h : findMatchingCluster issue cs = some c) : c ∈ cs := by
  rcases findMatchAux_spec (pyWords issue.summary) cs none 0 c h with
    ⟨hb, _⟩ | ⟨l₁, l₂, hsplit, _, _, _, _⟩
  · exact absurd hb (by simp)
  · rw [hsplit]
    exact List.mem_append_right l₁ (List.mem_cons_self c l₂)

@[simp] lemma bumpCluster_id (now : Int) (issue : Issue) (m : Cluster) :
    (bumpCluster now issue m).id = m.id := rfl

@[simp] lemma bumpCluster_category (now : Int) (issue : Issue) (m : Cluster) :
    (bumpCluster now issue m).category = m.category := rfl

@[simp] lemma bumpCluster_subcategory (now : Int) (issue : Issue) (m : Cluster) :
    (bumpCluster now issue m).subcategory = m.subcategory := rfl

@[simp] lemma bumpCluster_is_active (now : Int) (issue : Issue) (m : Cluster) :
    (bumpCluster now issue m).is_active = m.is_active := rfl

lemma updateClusterList_map_id (cs : List Cluster) (c' : Cluster) :
    (updateClusterList cs c').map Cluster.id = cs.map Cluster.id := by
  rw [updateClusterList, List.map_map]
  apply List.map_congr_left
  intro c _
  by_cases h : c.id = c'.id
  · simp [Function.comp, h]
  · simp [Function.comp, h]

lemma mem_updateClusterList_self {cs : List Cluster} {m : Cluster} (hm : m ∈ cs)
    (c' : Cluster) (hid : c'.id = m.id) : c' ∈ updateClusterList cs c' := by
  rw [updateClusterList]
  refine List.mem_map.mpr ⟨m, hm, ?_⟩
  simp [hid]

lemma mem_updateClusterList_of_ne {cs : List Cluster} {c : Cluster} (hc : c ∈ cs)
    (c' : Cluster) (hne : c.id ≠ c'.id) : c ∈ updateClusterList cs c' := by
  rw [updateClusterList]
  exact List.mem_map.mpr ⟨c, hc, by simp [hne]⟩

lemma updateClusterList_mem_elim {cs : List Cluster} {c' c'' : Cluster}
    (h : c'' ∈ updateClusterList cs c') :
    ∃ c ∈ cs, (c'' = c' ∧ c.id = c'.id) ∨ (c'' = c ∧ ¬ c.id = c'.id) := by
  rw [updateClusterList] at h
  obtain ⟨c, hc, heq⟩ := List.mem_map.mp h
  by_cases hid : c.id = c'.id
  · refine ⟨c, hc, Or.inl ⟨?_, hid⟩⟩
    rw [← heq]
    simp [hid]
  · refine ⟨c, hc, Or.inr ⟨?_, hid⟩⟩
    rw [← heq]
    simp [hid]

lemma cluster_eq_of_id {cs : List Cluster} (hids : (cs.map Cluster.id).Nodup)
    {a b : Cluster} (ha : a ∈ cs) (hb : b ∈ cs) (hab : a.id = b.id) : a = b :=
  List.inj_on_of_nodup_map hids ha hb hab

lemma GoodAssign_mono {st st' : ClusterState} (h : ViewLe st.clusters st'.clusters)
    {i : Issue} (hg : GoodAssign st i) : GoodAssign st' i := by
  obtain ⟨c, hc, hid, hcat, hsub, hact⟩ := hg
  obtain ⟨c', hc', hv⟩ := h c hc
  have h1 : c'.id = c.id := congrArg Prod.fst hv
  have h2 : c'.category = c.category := congrArg (fun p => p.2.1) hv
  have h3 : c'.subcategory = c.subcategory := congrArg (fun p => p.2.2.1) hv
  have h4 : c'.is_active = c.is_active := congrArg (fun p => p.2.2.2) hv
  exact ⟨c', hc', by rw [h1]; exact hid, h2.trans hcat, h3.trans hsub, h4.trans hact⟩

lemma assignIssue_inv (now : Int) (st0 : ClusterState) (k : String × String)
    (st : ClusterState) (cands : List Cluster) (issue : Issue)
    (hinv : PassInv st0 st) (hcands : CandsOk k st cands)
    (hiss : issue ∈ st0.issues) (hnone : issue.cluster_id = none)
    (hcat : issue.category = k.1) (hsub : issue.subcategory = k.2) :
    PassInv st0 (assignIssue now (st, cands) issue).1 ∧
    CandsOk k (assignIssue now (st, cands) issue).1
      (assignIssue now (st, cands) issue).2 := by
  obtain ⟨hids, hbound, hprov⟩ := hinv
  rcases hm : findMatchingCluster issue cands with _ | m
  · -- no match: a new cluster is created and appended
    have hstep : assignIssue now (st, cands) issue =
        ({ st with
            issues := updateIssueList st.issues
              { issue with cluster_id := some (newClusterFor now st.nextClusterId issue).id }
            clusters := st.clusters ++ [newClusterFor now st.nextClusterId issue]
            nextClusterId := st.nextClusterId + 1 },
          cands ++ [newClusterFor now st.nextClusterId issue]) := by
      simp [assignIssue, hm]
    rw [hstep]
    set nc := newClusterFor now st.nextClusterId issue with hnc
    have hncid : nc.id = st.nextClusterId := rfl
    have hview : ViewLe st.clusters (st.clusters ++ [nc]) :=
      fun c hc => ⟨c, List.mem_append_left _ hc, rfl⟩
    refine ⟨⟨?_, ?_, ?_⟩, ?_⟩
    · show ((st.clusters ++ [nc]).map Cluster.id).Nodup
      rw [List.map_append]
      refine List.Nodup.append hids (List.nodup_singleton _) ?_
      intro a ha hb
      obtain ⟨c, hc, rfl⟩ := List.mem_map.mp ha
      have h1 : c.id < st.nextClusterId := hbound c hc
      have h2 : c.id = nc.id := by simpa using hb
      omega
    · intro c hc
      show c.id < st.nextClusterId + 1
      rcases List.mem_append.mp hc with h | h
      · exact Nat.lt_succ_of_lt (hbound c h)
      · rw [List.mem_singleton] at h
        subst h
        omega
    · intro i'' hi''
      have hi2 : i'' ∈ updateIssueList st.issues
          { issue with cluster_id := some nc.id } := hi''
      rw [updateIssueList] at hi2
      dsimp only at hi2
      obtain ⟨i₁, hi₁, rfl⟩ := List.mem_map.mp hi2
      by_cases hid : (i₁.id == issue.id) = true
      · rw [if_pos hid]
        refine ⟨issue, hiss, ⟨rfl, rfl, rfl, rfl, rfl, rfl⟩, Or.inr ⟨hnone, ?_⟩⟩
        exact ⟨nc, List.mem_append_right _ (List.mem_singleton.mpr rfl),
          rfl, rfl, rfl, rfl⟩
      · rw [if_neg hid]
        obtain ⟨i0, hi0, hsame, hdisj⟩ := hprov i₁ hi₁
        refine ⟨i0, hi0, hsame, ?_⟩
        rcases hdisj with h | ⟨hn, hg⟩
        · exact Or.inl h
        · exact Or.inr ⟨hn, GoodAssign_mono hview hg⟩
    · intro c hc
      have hc2 : c ∈ cands ++ [nc] := hc
      rcases List.mem_append.mp hc2 with h | h
      · obtain ⟨hmem, hcat', hsub', hact'⟩ := hcands c h
        exact ⟨List.mem_append_left _ hmem, hcat', hsub', hact'⟩
      · rw [List.mem_singleton] at h
        subst h
        exact ⟨List.mem_append_right _ (List.mem_singleton.mpr rfl), hcat, hsub, rfl⟩
  · -- match: the candidate is mutated in place
    have hmc : m ∈ cands := findMatchingCluster_mem issue cands m hm
    obtain ⟨hm_st, hmcat, hmsub, hmact⟩ := hcands m hmc
    have hstep : assignIssue now (st, cands) issue =
        ({ st with
            issues := updateIssueList st.issues { issue with cluster_id := some m.id }
            clusters := updateClusterList st.clusters (bumpCluster now issue m) },
          updateClusterList cands (bumpCluster now issue m)) := by
      simp [assignIssue, hm]
    rw [hstep]
    set m' := bumpCluster now issue m with hm'
    have hm'id : m'.id = m.id := by rw [hm']; rfl
    have hview : ViewLe st.clusters (updateClusterList st.clusters m') := by
      intro c hc
      by_cases hcid : c.id = m.id
      · have hceq : c = m := cluster_eq_of_id hids hc hm_st hcid
        subst hceq
        refine ⟨m', mem_updateClusterList_self hc m' ?_, ?_⟩
        · rw [hm'id]
        · rw [hm']
          rfl
      · refine ⟨c, mem_updateClusterList_of_ne hc m' ?_, rfl⟩
        rw [hm'id]
        exact hcid
    refine ⟨⟨?_, ?_, ?_⟩, ?_⟩
    · show ((updateClusterList st.clusters m').map Cluster.id).Nodup
      rw [updateClusterList_map_id]
      exact hids
    · intro c'' hc''
      show c''.id < st.nextClusterId
      have hc2 : c'' ∈ updateClusterList st.clusters m' := hc''
      obtain ⟨c, hc, hcase⟩ := updateClusterList_mem_elim hc2
      rcases hcase with ⟨heq, _⟩ | ⟨heq, _⟩
      · rw [heq, hm'id]
        exact hbound m hm_st
      · rw [heq]
        exact hbound c hc
    · intro i'' hi''
      have hi2 : i'' ∈ updateIssueList st.issues
          { issue with cluster_id := some m.id } := hi''
      rw [updateIssueList] at hi2
      dsimp only at hi2
      obtain ⟨i₁, hi₁, rfl⟩ := List.mem_map.mp hi2
      by_cases hid : (i₁.id == issue.id) = true
      · rw [if_pos hid]
        refine ⟨issue, hiss, ⟨rfl, rfl, rfl, rfl, rfl, rfl⟩, Or.inr ⟨hnone, ?_⟩⟩
        refine ⟨m', mem_updateClusterList_self hm_st m' hm'id, ?_, ?_, ?_, ?_⟩
        · show some m.id = some m'.id
          rw [hm'id]
        · show m'.category = issue.category
          rw [hm']
          show m.category = issue.category
          rw [hmcat, hcat]
        · show m'.subcategory = issue.subcategory
          rw [hm']
          show m.subcategory = issue.subcategory
          rw [hmsub, hsub]
        · rw [hm']
          show m.is_active = true
          exact hmact
      · rw [if_neg hid]
        obtain ⟨i0, hi0, hsame, hdisj⟩ := hprov i₁ hi₁
        refine ⟨i0, hi0, hsame, ?_⟩
        rcases hdisj with h | ⟨hn, hg⟩
        · exact Or.inl h
        · exact Or.inr ⟨hn, GoodAssign_mono hview hg⟩
    · intro c'' hc''
      have hc2 : c'' ∈ updateClusterList cands m' := hc''
      obtain ⟨c, hc, hcase⟩ := updateClusterList_mem_elim hc2
      obtain ⟨hcm_st, hccat, hcsub, hcact⟩ := hcands c hc
      rcases hcase with ⟨heq, _⟩ | ⟨heq, hne⟩
      · rw [heq]
        refine ⟨mem_updateClusterList_self hm_st m' hm'id, ?_, ?_, ?_⟩
        · rw [hm']
          show m.category = k.1
          exact hmcat
        · rw [hm']
          show m.subcategory = k.2
          exact hmsub
        · rw [hm']
          show m.is_active = true
          exact hmact
      · rw [heq]
        exact ⟨mem_updateClusterList_of_ne hcm_st m' hne, hccat, hcsub, hcact⟩

lemma foldAssign_inv (now : Int) (st0 : ClusterState) (k : String × String) :
    ∀ (gIssues : List Issue) (st : ClusterState) (cands : List Cluster),
      PassInv st0 st → CandsOk k st cands →
      (∀ i ∈ gIssues, i ∈ st0.issues ∧ i.cluster_id = none ∧
        i.category = k.1 ∧ i.subcategory = k.2) →
      PassInv st0 (gIssues.foldl (assignIssue now) (st, cands)).1 := by
  intro gIssues
  induction gIssues with
  | nil => intro st cands hinv _ _; exact hinv
  | cons i rest ih =>
    intro st cands hinv hcands hg
    obtain ⟨hiss, hnone, hcat, hsub⟩ := hg i (List.mem_cons_self i rest)
    obtain ⟨hinv', hcands'⟩ :=
      assignIssue_inv now st0 k st cands i hinv hcands hiss hnone hcat hsub
    rw [List.foldl_cons]
    exact ih (assignIssue now (st, cands) i).1 (assignIssue now (st, cands) i).2
      hinv' hcands' (fun j hj => hg j (List.mem_cons_of_mem i hj))

lemma processGroup_inv (now : Int) (st0 : ClusterState) (k : String × String)
    (gIssues : List Issue) (st : ClusterState)
    (hinv : PassInv st0 st)
    (hg : ∀ i ∈ gIssues, i ∈ st0.issues ∧ i.cluster_id = none ∧
      i.category = k.1 ∧ i.subcategory = k.2) :
    PassInv st0 (processGroup now st k gIssues) := by
  rw [processGroup]
  refine foldAssign_inv now st0 k gIssues st _ hinv ?_ hg
  intro c hc
  rw [List.mem_filter] at hc
  obtain ⟨hmem, hcond⟩ := hc
  simp only [Bool.and_eq_true, beq_iff_eq] at hcond
  exact ⟨hmem, hcond.1.1, hcond.1.2, hcond.2⟩

lemma foldGroups_inv (now : Int) (st0 : ClusterState) :
    ∀ (keys : List (String × String)) (st : ClusterState),
      PassInv st0 st →
      PassInv st0 (keys.foldl (fun st' k => processGroup now st' k
        ((st0.issues.filter (fun i => i.cluster_id.isNone)).filter
          (fun i => i.category == k.1 && i.subcategory == k.2))) st) := by
  intro keys
  induction keys with
  | nil => intro st h; exact h
  | cons k ks ih =>
    intro st h
    rw [List.foldl_cons]
    apply ih
    refine processGroup_inv now st0 k _ st h ?_
    intro i hi
    rw [List.mem_filter] at hi
    obtain ⟨hi1, hcond⟩ := hi
    rw [List.mem_filter] at hi1
    obtain ⟨hmem, hnone⟩ := hi1
    simp only [Bool.and_eq_true, beq_iff_eq] at hcond
    exact ⟨hmem, Option.isNone_iff_eq_none.mp hnone, hcond.1, hcond.2⟩

/-! ## Claims -/

/-- C2: upserting the same external ticket id twice with two snapshots
leaves exactly one row for that id; the row's mutable fields (subject,
description, comment texts, requester fields, tags, status, priority,
updated/synced timestamps) carry the second snapshot's values and the
identity key is preserved. -/
theorem c2_upsert_latest_wins (store : List TicketRow) (v1 v2 : TicketRow) (k : Nat)
    (h1 : v1.zendesk_ticket_id = k) (h2 : v2.zendesk_ticket_id = k)
    (hu : (rowsFor store k).length ≤ 1) :
    ∃ r, rowsFor (upsertTicket (upsertTicket store v1) v2) k = [r] ∧
      r.zendesk_ticket_id = k ∧
      r.subject = v2.subject ∧ r.description = v2.description ∧
      r.internal_notes = v2.internal_notes ∧ r.public_comments = v2.public_comments ∧
      r.requester_email = v2.requester_email ∧
      r.requester_org_name = v2.requester_org_name ∧
      r.tags = v2.tags ∧ r.status = v2.status ∧ r.priority = v2.priority ∧
      r.ticket_updated_at = v2.ticket_updated_at ∧ r.synced_at = v2.synced_at := by
  have step1 := rowsFor_upsert store v1 k h1 hu
  have hmid : ∃ w, rowsFor (upsertTicket store v1) k = [w] ∧ w.zendesk_ticket_id = k := by
    rcases step1 with h | ⟨a, hak, h⟩
    · exact ⟨v1, h, h1⟩
    · exact ⟨applyConflictUpdate a v1, h, by simp [hak]⟩
  obtain ⟨w, hw, hwk⟩ := hmid
  have step2 := rowsFor_upsert (upsertTicket store v1) v2 k h2 (by rw [hw]; simp)
  rcases step2 with h | ⟨a, hak, h⟩
  · exact ⟨v2, h, h2, rfl, rfl, rfl, rfl, rfl, rfl, rfl, rfl, rfl, rfl, rfl⟩
  · exact ⟨applyConflictUpdate a v2, h, by simp [hak], rfl, rfl, rfl, rfl, rfl, rfl, rfl,
      rfl, rfl, rfl, rfl⟩

/-- Witness for C2: two successive snapshots of external id 7 upserted
into an empty store. -/
theorem c2_upsert_latest_wins_witness :
    (exRowV1.zendesk_ticket_id = 7 ∧ exRowV2.zendesk_ticket_id = 7 ∧
      (rowsFor [] 7).length ≤ 1) ∧
    ∃ r, rowsFor (upsertTicket (upsertTicket [] exRowV1) exRowV2) 7 = [r] ∧
      r.zendesk_ticket_id = 7 ∧
      r.subject = exRowV2.subject ∧ r.description = exRowV2.description ∧
      r.internal_notes = exRowV2.internal_notes ∧
      r.public_comments = exRowV2.public_comments ∧
      r.requester_email = exRowV2.requester_email ∧
      r.requester_org_name = exRowV2.requester_org_name ∧
      r.tags = exRowV2.tags ∧ r.status = exRowV2.status ∧
      r.priority = exRowV2.priority ∧
      r.ticket_updated_at = exRowV2.ticket_updated_at ∧
      r.synced_at = exRowV2.synced_at :=
  ⟨⟨rfl, rfl, by decide⟩,
    c2_upsert_latest_wins [] exRowV1 exRowV2 7 rfl rfl (by decide)⟩

/-- C1: merging distinct clusters A into B leaves zero issues referencing
A, deactivates A, and sets B's issue_count to the exact recount of the
issues referencing B after the reassignment. -/
theorem c1_merge_exact_recount (st : ClusterState) (A B : Nat) (hne : A ≠ B)
    (hB : ∃ c ∈ st.clusters, c.id = B) :
    ((mergeClusters st A B).issues.filter (fun i => i.cluster_id == some A)).length = 0 ∧
    (∀ c ∈ (mergeClusters st A B).clusters, c.id = A → c.is_active = false) ∧
    (∀ c ∈ (mergeClusters st A B).clusters, c.id = B →
      c.issue_count = ((mergeClusters st A B).issues.filter
        (fun i => i.cluster_id == some B)).length) := by
  obtain ⟨b, hbmem, hbid⟩ := hB
  have hBA : (b.id == A) = false := by
    rw [hbid]
    exact beq_eq_false_iff_ne.mpr (Ne.symm hne)
  have hbmem₁ : b ∈ st.clusters.map
      (fun c => if c.id == A then { c with is_active := false } else c) := by
    refine List.mem_map.mpr ⟨b, hbmem, ?_⟩
    simp [hBA]
  have hsome : ((st.clusters.map
      (fun c => if c.id == A then { c with is_active := false } else c)).find?
        (fun c => c.id == B)).isSome := by
    rw [List.find?_isSome]
    exact ⟨b, hbmem₁, by simp [hbid]⟩
  obtain ⟨t, ht⟩ := Option.isSome_iff_exists.mp hsome
  refine ⟨?_, ?_, ?_⟩
  · simp only [mergeClusters, ht]
    rw [List.length_eq_zero, List.filter_eq_nil_iff]
    intro i hi
    obtain ⟨i₀, _, rfl⟩ := List.mem_map.mp hi
    by_cases hc : i₀.cluster_id = some A
    · simp [hc, Ne.symm hne]
    · simp [hc]
  · simp only [mergeClusters, ht]
    intro c hc hcA
    obtain ⟨c₁, hc₁, rfl⟩ := List.mem_map.mp hc
    obtain ⟨c₀, _, rfl⟩ := List.mem_map.mp hc₁
    rw [setcount_cluster_id, deact_cluster_id] at hcA
    rw [setcount_cluster_active]
    simp [hcA]
  · simp only [mergeClusters, ht]
    intro c hc hcB
    obtain ⟨c₁, hc₁, rfl⟩ := List.mem_map.mp hc
    obtain ⟨c₀, _, rfl⟩ := List.mem_map.mp hc₁
    rw [setcount_cluster_id, deact_cluster_id] at hcB
    have h0 : (c₀.id == A) = false := by
      rw [hcB]
      exact beq_eq_false_iff_ne.mpr (Ne.symm hne)
    have e1 : (if c₀.id == A then { c₀ with is_active := false } else c₀) = c₀ := by
      simp [h0]
    rw [e1]
    simp [hcB]

/-- C3: with MAX_RETRIES = 3, the response sequence
[429 Retry-After 1, 429 Retry-After 1, 200] produces exactly two sleeps of
the server-provided 1 second each and succeeds; four consecutive 500s make
exactly 4 attempts with backoff sleeps 1, 2, 4 (doubling from 1s, capped
at 60s) and fail with the generic upstream error; any 4xx status other
than 429 fails immediately with no retry and no sleep. -/
theorem c3_retry_policy :
    (zendeskRequest [⟨429, some 1⟩, ⟨429, some 1⟩, ⟨200, none⟩] =
      ⟨ReqResult.ok, 3, [1, 1]⟩) ∧
    (zendeskRequest [⟨500, none⟩, ⟨500, none⟩, ⟨500, none⟩, ⟨500, none⟩] =
      ⟨ReqResult.apiErr, 4, [1, 2, 4]⟩) ∧
    (∀ (code : Nat) (ra : Option Nat) (rest : List Response),
      400 ≤ code → code < 500 → code ≠ 429 →
      zendeskRequest (⟨code, ra⟩ :: rest) = ⟨ReqResult.apiErr, 1, []⟩) := by
  refine ⟨by decide, by decide, ?_⟩
  intro code ra rest h1 h2 h3
  have h5 : ¬ (500 ≤ code ∧ code < 600) := by omega
  have h4 : 400 ≤ code ∧ code < 500 := ⟨h1, h2⟩
  simp [zendeskRequest, requestLoop, h3, h5, h4]

/-- Witness for C3: the immediate-failure branch at status 404. -/
theorem c3_retry_policy_witness :
    (400 ≤ 404 ∧ 404 < 500 ∧ 404 ≠ 429) ∧
    zendeskRequest [⟨404, none⟩] = ⟨ReqResult.apiErr, 1, []⟩ :=
  ⟨by decide, c3_retry_policy.2.2 404 none [] (by decide) (by decide) (by decide)⟩

/-- C10: a `sync_tickets` call that actually runs (guard initially clear)
leaves `_is_running = false` on termination whether the body returns or
raises — the `finally` block clears it — so a later call on the instance
is never rejected with the already-running error. -/
theorem c10_guard_always_cleared :
    ∀ bodyRaises : Bool,
      ((syncTickets ⟨false⟩ bodyRaises).2.is_running = false) ∧
      (∀ b₂ : Bool,
        (syncTickets (syncTickets ⟨false⟩ bodyRaises).2 b₂).1 = Except.ok () ∨
        (syncTickets (syncTickets ⟨false⟩ bodyRaises).2 b₂).1 =
          Except.error SyncError.fatal) := by
  intro bodyRaises
  constructor
  · cases bodyRaises <;> rfl
  · intro b₂
    cases bodyRaises <;> cases b₂ <;> simp [syncTickets]


/-- Witness for C1: merging cluster 0 into cluster 1 in `exMergeState`. -/
theorem c1_merge_exact_recount_witness :
    ((0 : Nat) ≠ 1 ∧ ∃ c ∈ exMergeState.clusters, c.id = 1) ∧
    (((mergeClusters exMergeState 0 1).issues.filter
        (fun i => i.cluster_id == some 0)).length = 0 ∧
      (∀ c ∈ (mergeClusters exMergeState 0 1).clusters, c.id = 0 →
        c.is_active = false) ∧
      (∀ c ∈ (mergeClusters exMergeState 0 1).clusters, c.id = 1 →
        c.issue_count = ((mergeClusters exMergeState 0 1).issues.filter
          (fun i => i.cluster_id == some 1)).length)) :=
  ⟨⟨by decide, by decide⟩,
    c1_merge_exact_recount exMergeState 0 1 (by decide) (by decide)⟩

/-- Counterexample for C4: at `now = 1000000`, the only (active) cluster
of `exFutureState` has one issue extracted at `now + 5`; the code stores
`count_7d = 1`, while the claim's half-open window `[now - 7d, now)` holds
0 issues, so a future-dated issue is counted in `count_7d`. -/
theorem c4_counterexample :
    (updateClusterTrends 1000000 exFutureState).clusters.map Cluster.count_7d = [1] ∧
    claimedCount7d 1000000 exFutureState 0 = 0 ∧
    exFutureState.clusters.map Cluster.is_active = [true] ∧
    (updateClusterTrends 1000000 exFutureState).clusters.map Cluster.count_prior_7d
      = [0] := by
  decide

/-- C4 (amended): after the trend recomputation, for every active cluster,
`count_7d` counts the cluster's issues with `extracted_at >= now - 7d`
(no upper bound, so an issue with `extracted_at >= now` is included), and
`count_prior_7d` counts those with `extracted_at` in `[now - 14d, now - 7d)`
exactly; the window predicates are characterized extensionally. -/
theorem c4_trend_window_counts (now : Int) (st : ClusterState) :
    (∀ c ∈ st.clusters, c.is_active = true →
      ∃ c' ∈ (updateClusterTrends now st).clusters, c'.id = c.id ∧
        c'.count_7d = (st.issues.filter (fun i =>
          i.cluster_id == some c.id && inRecentWindow (now - days 7) i)).length ∧
        c'.count_prior_7d = (st.issues.filter (fun i =>
          i.cluster_id == some c.id &&
            inPriorWindow (now - days 14) (now - days 7) i)).length) ∧
    (∀ (w : Int) (i : Issue), inRecentWindow w i = true ↔
      ∃ t, i.extracted_at = some t ∧ w ≤ t) ∧
    (∀ (w₁ w₂ : Int) (i : Issue), inPriorWindow w₁ w₂ i = true ↔
      ∃ t, i.extracted_at = some t ∧ w₁ ≤ t ∧ t < w₂) := by
  refine ⟨?_, ?_, ?_⟩
  · intro c hc hact
    refine ⟨_, List.mem_map_of_mem _ hc, ?_⟩
    simp [hact]
  · intro w i
    cases h : i.extracted_at <;> simp [inRecentWindow, h]
  · intro w₁ w₂ i
    cases h : i.extracted_at <;> simp [inPriorWindow, h]

/-- Witness for C4 (amended): the active cluster of `exFutureState`. -/
theorem c4_trend_window_counts_witness :
    (exActiveCluster ∈ exFutureState.clusters ∧ exActiveCluster.is_active = true) ∧
    ∃ c' ∈ (updateClusterTrends 1000000 exFutureState).clusters,
      c'.id = exActiveCluster.id ∧
      c'.count_7d = (exFutureState.issues.filter (fun i =>
        i.cluster_id == some exActiveCluster.id &&
          inRecentWindow (1000000 - days 7) i)).length ∧
      c'.count_prior_7d = (exFutureState.issues.filter (fun i =>
        i.cluster_id == some exActiveCluster.id &&
          inPriorWindow (1000000 - days 14) (1000000 - days 7) i)).length :=
  ⟨⟨by decide, rfl⟩,
    (c4_trend_window_counts 1000000 exFutureState).1 exActiveCluster
      (by decide) rfl⟩

/-- C5: after the trend recomputation every active cluster stores
`trend_pct = ((count_7d - count_prior_7d) / count_prior_7d) * 100` when
its stored `count_prior_7d` is positive, else 100 when `count_7d` is
positive, else 0 (in particular `trendPct 3 0 = 100` and
`trendPct 0 0 = 0`), and `updated_at` is advanced to `now`
unconditionally for every active cluster. -/
theorem c5_trend_pct_formula (now : Int) (st : ClusterState) :
    (∀ c ∈ st.clusters, c.is_active = true →
      ∃ c' ∈ (updateClusterTrends now st).clusters, c'.id = c.id ∧
        c'.updated_at = now ∧
        c'.trend_pct = some (if 0 < c'.count_prior_7d
          then ((c'.count_7d : ℚ) - (c'.count_prior_7d : ℚ))
            / (c'.count_prior_7d : ℚ) * 100
          else if 0 < c'.count_7d then (100 : ℚ) else 0)) ∧
    trendPct 3 0 = 100 ∧ trendPct 0 0 = 0 := by
  refine ⟨?_, by norm_num [trendPct], by norm_num [trendPct]⟩
  intro c hc hact
  refine ⟨_, List.mem_map_of_mem _ hc, ?_⟩
  simp [hact, trendPct]

/-- Witness for C5: the active cluster of `exFutureState`. -/
theorem c5_trend_pct_formula_witness :
    (exActiveCluster ∈ exFutureState.clusters ∧ exActiveCluster.is_active = true) ∧
    ∃ c' ∈ (updateClusterTrends 1000000 exFutureState).clusters,
      c'.id = exActiveCluster.id ∧
      c'.updated_at = 1000000 ∧
      c'.trend_pct = some (if 0 < c'.count_prior_7d
        then ((c'.count_7d : ℚ) - (c'.count_prior_7d : ℚ))
          / (c'.count_prior_7d : ℚ) * 100
        else if 0 < c'.count_7d then (100 : ℚ) else 0) :=
  ⟨⟨by decide, rfl⟩,
    (c5_trend_pct_formula 1000000 exFutureState).1 exActiveCluster
      (by decide) rfl⟩

/-- Counterexample for C9: the only (active) cluster of `exNullOrgState`
has one issue whose ticket's `requester_org_name` is NULL; the code's
`COUNT(DISTINCT requester_org_name)` stores 0, while counting NULL as one
distinct value like any other (as the claim reads) would give 1. -/
theorem c9_counterexample :
    (updateUniqueCustomerCounts exNullOrgState).clusters.map
      Cluster.unique_customers = [0] ∧
    claimedUniqueCustomers exNullOrgState 0 = 1 ∧
    exNullOrgState.clusters.map Cluster.is_active = [true] := by
  decide

/-- C9 (amended): after the customer-count recomputation, every active
cluster stores the number of distinct non-NULL requester-organization
names across its issues' tickets; NULL names are suppressed by
`COUNT(DISTINCT ...)`.  Membership in the joined name list is
characterized extensionally. -/
theorem c9_distinct_nonnull_orgs (st : ClusterState) :
    (∀ c ∈ st.clusters, c.is_active = true →
      ∃ c' ∈ (updateUniqueCustomerCounts st).clusters, c'.id = c.id ∧
        c'.unique_customers = (orgNamesFor st c.id).toFinset.card) ∧
    (∀ (cid : Nat) (n : String), n ∈ orgNamesFor st cid ↔
      ∃ i ∈ st.issues, i.cluster_id = some cid ∧
        ∃ t, st.tickets.find? (fun t' => t'.id == i.ticket_id) = some t ∧
          t.requester_org_name = some n) := by
  constructor
  · intro c hc hact
    refine ⟨_, List.mem_map_of_mem _ hc, ?_⟩
    simp [hact, List.card_toFinset]
  · intro cid n
    simp only [orgNamesFor, List.mem_filterMap, List.mem_filter,
      Option.bind_eq_some]
    constructor
    · rintro ⟨i, ⟨hi, hcid⟩, t, hfind, horg⟩
      exact ⟨i, hi, by simpa using hcid, t, hfind, horg⟩
    · rintro ⟨i, hi, hcid, t, hfind, horg⟩
      exact ⟨i, ⟨hi, by simpa using hcid⟩, t, hfind, horg⟩

/-- Witness for C9 (amended): the active cluster of `exNullOrgState`. -/
theorem c9_distinct_nonnull_orgs_witness :
    (exActiveCluster ∈ exNullOrgState.clusters ∧ exActiveCluster.is_active = true) ∧
    ∃ c' ∈ (updateUniqueCustomerCounts exNullOrgState).clusters,
      c'.id = exActiveCluster.id ∧
      c'.unique_customers = (orgNamesFor exNullOrgState exActiveCluster.id).toFinset.card :=
  ⟨⟨by decide, rfl⟩,
    (c9_distinct_nonnull_orgs exNullOrgState).1 exActiveCluster (by decide) rfl⟩


/-- C7: the candidate chosen by `_find_matching_cluster` scores strictly
above the 0.3 threshold and strictly above every earlier candidate (so
among equal scores the first wins), later candidates score no higher; when
no candidate exceeds the threshold, no match is returned and the caller
creates a new cluster. -/
theorem c7_candidate_selection (issue : Issue) (clusters : List Cluster) :
    (findMatchingCluster issue clusters = none ↔
      ∀ c ∈ clusters, scoreOf issue c ≤ SIMILARITY_THRESHOLD) ∧
    (∀ c, findMatchingCluster issue clusters = some c →
      SIMILARITY_THRESHOLD < scoreOf issue c ∧
      ∃ l₁ l₂, clusters = l₁ ++ c :: l₂ ∧
        (∀ d ∈ l₁, scoreOf issue d < scoreOf issue c) ∧
        (∀ d ∈ l₂, scoreOf issue d ≤ scoreOf issue c)) ∧
    (∀ (now : Int) (st : ClusterState),
      findMatchingCluster issue clusters = none →
      (assignIssue now (st, clusters) issue).1.clusters
        = st.clusters ++ [newClusterFor now st.nextClusterId issue]) := by
  refine ⟨⟨?_, ?_⟩, ?_, ?_⟩
  · intro h c hc
    have hdis := findMatchAux_none (pyWords issue.summary) clusters none 0 h c hc
    rcases hdis with h1 | h1
    · exact h1
    · exact le_trans h1 (le_of_lt threshold_pos)
  · intro hall
    exact findMatchAux_keeps (pyWords issue.summary) clusters none 0
      (fun d hd => Or.inl (hall d hd))
  · intro c h
    rcases findMatchAux_spec (pyWords issue.summary) clusters none 0 c h with
      ⟨hb, _⟩ | ⟨l₁, l₂, hsplit, h1, _, hpre, hpost⟩
    · exact absurd hb (by simp)
    · refine ⟨h1, l₁, l₂, hsplit, ?_, ?_⟩
      · intro d hd
        rcases hpre d hd with hx | hx
        · exact lt_of_le_of_lt hx h1
        · exact hx
      · intro d hd
        rcases hpost d hd with hx | hx
        · exact le_trans hx (le_of_lt h1)
        · exact hx
  · intro now st h
    simp [assignIssue, h]

/-- Witness for C7: `exIssue` against the single candidate `exCluster`
(score 1 > 0.3). -/
theorem c7_candidate_selection_witness :
    (findMatchingCluster exIssue [exCluster] = some exCluster) ∧
    (SIMILARITY_THRESHOLD < scoreOf exIssue exCluster ∧
      ∃ l₁ l₂, [exCluster] = l₁ ++ exCluster :: l₂ ∧
        (∀ d ∈ l₁, scoreOf exIssue d < scoreOf exIssue exCluster) ∧
        (∀ d ∈ l₂, scoreOf exIssue d ≤ scoreOf exIssue exCluster)) :=
  ⟨by decide, (c7_candidate_selection exIssue [exCluster]).2.1 exCluster (by decide)⟩

/-- Counterexample for C8: in `exMatchState` the cluster's `last_seen` is
1000 and the matching issue's extraction time is 500; after the clustering
pass the issue is assigned (count 5 -> 6) and `last_seen` has moved
backwards to 500, refuting "never moves last_seen backwards". -/
theorem c8_counterexample :
    exMatchState.clusters.map Cluster.last_seen = [some 1000] ∧
    exMatchState.issues.map Issue.extracted_at = [some 500] ∧
    (clusterIssues 2000 exMatchState).issues.map Issue.cluster_id = [some 0] ∧
    (clusterIssues 2000 exMatchState).clusters.map Cluster.issue_count = [6] ∧
    (clusterIssues 2000 exMatchState).clusters.map Cluster.last_seen = [some 500] := by
  decide

/-- C8 (amended): on a match the cluster's issue_count is incremented by
one and the issue's cluster_id set, but `last_seen` is overwritten with
`issue.extracted_at or utcnow()` unconditionally — not advanced to the
max — so it can move backwards. -/
theorem c8_match_updates (now : Int) (st : ClusterState) (cands : List Cluster)
    (issue : Issue) (m : Cluster)
    (hm : findMatchingCluster issue cands = some m)
    (hmem : m ∈ st.clusters) (hiss : issue ∈ st.issues) :
    ∃ m' ∈ (assignIssue now (st, cands) issue).1.clusters,
      m'.id = m.id ∧ m'.issue_count = m.issue_count + 1 ∧
      m'.last_seen = some (issue.extracted_at.getD now) ∧
      ∃ i' ∈ (assignIssue now (st, cands) issue).1.issues,
        i'.id = issue.id ∧ i'.cluster_id = some m.id := by
  simp only [assignIssue, hm]
  refine ⟨bumpCluster now issue m, ?_, rfl, rfl, rfl, ?_⟩
  · rw [updateClusterList]
    exact List.mem_map.mpr ⟨m, hmem, by simp [bumpCluster]⟩
  · refine ⟨{ issue with cluster_id := some m.id }, ?_, rfl, rfl⟩
    rw [updateIssueList]
    exact List.mem_map.mpr ⟨issue, hiss, by simp⟩

/-- Witness for C8 (amended): the match of `exIssue` on `exCluster`. -/
theorem c8_match_updates_witness :
    (findMatchingCluster exIssue [exCluster] = some exCluster ∧
      exCluster ∈ exMatchState.clusters ∧ exIssue ∈ exMatchState.issues) ∧
    ∃ m' ∈ (assignIssue 2000 (exMatchState, [exCluster]) exIssue).1.clusters,
      m'.id = exCluster.id ∧ m'.issue_count = exCluster.issue_count + 1 ∧
      m'.last_seen = some (exIssue.extracted_at.getD 2000) ∧
      ∃ i' ∈ (assignIssue 2000 (exMatchState, [exCluster]) exIssue).1.issues,
        i'.id = exIssue.id ∧ i'.cluster_id = some exCluster.id :=
  ⟨⟨by decide, by decide, by decide⟩,
    c8_match_updates 2000 exMatchState [exCluster] exIssue exCluster
      (by decide) (by decide) (by decide)⟩


/-- C6: in a clustering pass, every issue is carried over with its
non-cluster columns untouched, and an issue whose `cluster_id` changed
had `cluster_id` NULL beforehand and is now linked to a cluster with the
issue's own (category, subcategory) that is active — candidates are
restricted to active clusters of the group's key and the pass never
deactivates a cluster, so a cluster active in the final state was active
at assignment time. -/
theorem c6_assignment_within_key (now : Int) (st : ClusterState)
    (hids : (st.clusters.map Cluster.id).Nodup)
    (hbound : ∀ c ∈ st.clusters, c.id < st.nextClusterId) :
    IssueProvenance st (clusterIssues now st) := by
  have hinv0 : PassInv st st := by
    refine ⟨hids, hbound, ?_⟩
    intro i hi
    exact ⟨i, hi, ⟨rfl, rfl, rfl, rfl, rfl, rfl⟩, Or.inl rfl⟩
  have h := foldGroups_inv now st
    (groupKeys (st.issues.filter (fun i => i.cluster_id.isNone))) st hinv0
  exact h.2.2

/-- Witness for C6: the one-issue, one-cluster state `exMatchState`. -/
theorem c6_assignment_within_key_witness :
    ((exMatchState.clusters.map Cluster.id).Nodup ∧
      ∀ c ∈ exMatchState.clusters, c.id < exMatchState.nextClusterId) ∧
    IssueProvenance exMatchState (clusterIssues 2000 exMatchState) :=
  ⟨⟨by decide, by decide⟩,
    c6_assignment_within_key 2000 exMatchState (by decide) (by decide)⟩

end Miner
